import Mathlib

/-!
Verification of the topology-graph renderer of `r3code/vector`
(file `src/graph.rs`): the `graph` CLI subcommand that serializes a
data-pipeline configuration (sources, transforms, sinks connected by
input references) to Graphviz DOT or Mermaid flowchart text.

The embedding translates `graphviz_graph`, `mermaid_graph` and the
format-dispatch portion of `cmd` from the Rust source.  Each
`writeln!(acc, FMT, args)` call becomes an append of the named line
definition (the expansion of `FMT` plus the trailing newline) to the
accumulator; the external configuration model (`config::Config`) is
represented by the ordered collections the renderer iterates over.
-/

namespace VectorGraph

/-- An input reference of a transform or sink (Rust `OutputId`):
an upstream component identifier with an optional named output port. -/
structure OutputId where
  component : String
  port : Option String
deriving DecidableEq, Repr

/-- Modelled from the spec: an Input Reference is "written as either a bare
component identifier (no port) or `component.port` (port-qualified)".
This is the `Display` rendering of `OutputId`, whose implementation lives
in the external `config` module.  The renderers only apply it to
references with `port = none`. -/
def OutputId.display (i : OutputId) : String :=
  match i.port with
  | some p => i.component ++ "." ++ p
  | none => i.component

/-- A transform component as seen by the renderer: its ordered list of
input references. -/
structure Transform where
  inputs : List OutputId
deriving DecidableEq, Repr

/-- A sink component as seen by the renderer: its ordered list of
input references. -/
structure Sink where
  inputs : List OutputId
deriving DecidableEq, Repr

/-- The configuration model, restricted to what `graph.rs` consumes:
the three ordered collections `sources()`, `transforms()`, `sinks()`,
each in declaration (insertion) order.  Source descriptors are unused by
the renderer, so sources are just their identifiers. -/
structure Config where
  sources : List String
  transforms : List (String × Transform)
  sinks : List (String × Sink)
deriving DecidableEq, Repr

/-- DOT node line for a source (src/graph.rs:127):
`writeln!(dot, "  \"{}\" [shape=trapezium]", id)`. -/
def dotSourceStmt (id : String) : String :=
  "  \"" ++ id ++ "\" [shape=trapezium]\n"

/-- DOT node line for a transform (src/graph.rs:131):
`writeln!(dot, "  \"{}\" [shape=diamond]", id)`. -/
def dotTransformStmt (id : String) : String :=
  "  \"" ++ id ++ "\" [shape=diamond]\n"

/-- DOT node line for a sink (src/graph.rs:149):
`writeln!(dot, "  \"{}\" [shape=invtrapezium]", id)`. -/
def dotSinkStmt (id : String) : String :=
  "  \"" ++ id ++ "\" [shape=invtrapezium]\n"

/-- DOT edge line for one input reference of the component `to`
(src/graph.rs:134-144, identical at 151-162): a labeled line
`writeln!(dot, "  \"{}\" -> \"{}\" [label=\"{}\"]", input.component, id,
port)` when the reference is port-qualified, otherwise
`writeln!(dot, "  \"{}\" -> \"{}\"", input, id)` using the reference's
`Display` form. -/
def dotEdgeStmt (input : OutputId) (tgt : String) : String :=
  match input.port with
  | some port =>
      "  \"" ++ input.component ++ "\" -> \"" ++ tgt ++
        "\" [label=\"" ++ port ++ "\"]\n"
  | none =>
      "  \"" ++ input.display ++ "\" -> \"" ++ tgt ++ "\"\n"

/-- Mermaid node line for a source (src/graph.rs:174):
`writeln!(mm, "  {}[/{}\\]", id, id)`. -/
def mmSourceStmt (id : String) : String :=
  "  " ++ id ++ "[/" ++ id ++ "\\]\n"

/-- Mermaid node line for a transform (src/graph.rs:178):
`writeln!(mm, "  {}[{{ {} }}]", id, id)`. -/
def mmTransformStmt (id : String) : String :=
  "  " ++ id ++ "[\x7b " ++ id ++ " \x7d]\n"

/-- Mermaid node line for a sink (src/graph.rs:196):
`writeln!(mm, "  {}[\\ {} /]", id, id)`. -/
def mmSinkStmt (id : String) : String :=
  "  " ++ id ++ "[\\ " ++ id ++ " /]\n"

/-- Mermaid edge line for one input reference of the component `to`
(src/graph.rs:181-191, identical at 198-209): a labeled line
`writeln!(mm, "  {}--{}-->{}", input.component, port, id)` when the
reference is port-qualified, otherwise
`writeln!(mm, "  {}-->{}", input, id)`. -/
def mmEdgeStmt (input : OutputId) (tgt : String) : String :=
  match input.port with
  | some port =>
      "  " ++ input.component ++ "--" ++ port ++ "-->" ++ tgt ++ "\n"
  | none =>
      "  " ++ input.display ++ "-->" ++ tgt ++ "\n"

/-- Translation of `graphviz_graph` (src/graph.rs:123-168): starting from
the header, append one node line per source, then per transform its node
line followed by one edge line per input, then the same for sinks, and
close the graph body. -/
def graphviz_graph (config : Config) : String :=
  let dot := "digraph \x7b\n"
  let dot := config.sources.foldl
    (fun dot id => dot ++ dotSourceStmt id) dot
  let dot := config.transforms.foldl
    (fun dot it =>
      it.2.inputs.foldl
        (fun dot input => dot ++ dotEdgeStmt input it.1)
        (dot ++ dotTransformStmt it.1))
    dot
  let dot := config.sinks.foldl
    (fun dot ik =>
      ik.2.inputs.foldl
        (fun dot input => dot ++ dotEdgeStmt input ik.1)
        (dot ++ dotSinkStmt ik.1))
    dot
  dot ++ "\x7d"

/-- Translation of `mermaid_graph` (src/graph.rs:170-213): same traversal
as the DOT renderer with Mermaid line syntax and no closing token. -/
def mermaid_graph (config : Config) : String :=
  let mm := "flowchart TD\n"
  let mm := config.sources.foldl
    (fun mm id => mm ++ mmSourceStmt id) mm
  let mm := config.transforms.foldl
    (fun mm it =>
      it.2.inputs.foldl
        (fun mm input => mm ++ mmEdgeStmt input it.1)
        (mm ++ mmTransformStmt it.1))
    mm
  let mm := config.sinks.foldl
    (fun mm ik =>
      ik.2.inputs.foldl
        (fun mm input => mm ++ mmEdgeStmt input ik.1)
        (mm ++ mmSinkStmt ik.1))
    mm
  mm

/-- The exit code `exitcode::OK`. -/
def exitcodeOK : Nat := 0

/-- Translation of the format-dispatch and output portion of `cmd`
(src/graph.rs:102-119), after the configuration has loaded successfully:
returns the text printed to stdout (`println!` appends one newline to the
selected graph string, which starts out empty) and the exit code. -/
def cmd (output_format : String) (config : Config) : String × Nat :=
  let graph :=
    if output_format == "dot" then graphviz_graph config
    else if output_format == "mermaid" then mermaid_graph config
    else ""
  (graph ++ "\n", exitcodeOK)

/-! ### The document as an ordered statement list

`dotStmts`/`mmStmts` spell out the emission order the spec claims:
all source node lines in collection order, then for each transform its
node line followed by its edge lines in declared input order, then the
same for sinks. -/

/-- Concatenation of a list of statement lines into one text blob. -/
def concatStmts : List String → String
  | [] => ""
  | s :: rest => s ++ concatStmts rest

/-- The DOT statement lines in the order the spec claims they are
emitted. -/
def dotStmts (config : Config) : List String :=
  config.sources.map dotSourceStmt
    ++ config.transforms.flatMap
        (fun it => dotTransformStmt it.1 ::
          it.2.inputs.map (fun i => dotEdgeStmt i it.1))
    ++ config.sinks.flatMap
        (fun ik => dotSinkStmt ik.1 ::
          ik.2.inputs.map (fun i => dotEdgeStmt i ik.1))

/-- The Mermaid statement lines in the order the spec claims they are
emitted. -/
def mmStmts (config : Config) : List String :=
  config.sources.map mmSourceStmt
    ++ config.transforms.flatMap
        (fun it => mmTransformStmt it.1 ::
          it.2.inputs.map (fun i => mmEdgeStmt i it.1))
    ++ config.sinks.flatMap
        (fun ik => mmSinkStmt ik.1 ::
          ik.2.inputs.map (fun i => mmEdgeStmt i ik.1))

/-! ### Occurrence of a statement in a document -/

/-- The document `doc` contains `stmt` as a contiguous piece of text. -/
def containsStmt (doc stmt : String) : Prop :=
  ∃ u v, doc = u ++ stmt ++ v


/-! ### Fallibility-checked renderers

Rust's `writeln!` returns a `fmt::Result` which the source unwraps with
`.expect("write to String never fails")`.  The checked variants keep that
structure: `writeStr` is the `fmt::Write` implementation for `String`
(which always returns `Ok`), and `expectOk` models `Result::expect`,
panicking (`none`) on an `Err`. -/

/-- `fmt::Write` for `String`: appending to an in-memory string buffer
always succeeds. -/
def writeStr (acc s : String) : Except Unit String :=
  Except.ok (acc ++ s)

/-- `Result::expect`: an `Ok` value passes through, an `Err` panics
(modelled as `none`). -/
def expectOk : Except Unit String → Option String
  | Except.ok s => some s
  | Except.error _ => none

/-- `graphviz_graph` with every `writeln!`/`expect` step kept fallible. -/
def graphviz_graphChecked (config : Config) : Option String :=
  let dot := some "digraph \x7b\n"
  let dot := config.sources.foldl
    (fun dot id => dot.bind fun d => expectOk (writeStr d (dotSourceStmt id))) dot
  let dot := config.transforms.foldl
    (fun dot it =>
      it.2.inputs.foldl
        (fun dot input =>
          dot.bind fun d => expectOk (writeStr d (dotEdgeStmt input it.1)))
        (dot.bind fun d => expectOk (writeStr d (dotTransformStmt it.1))))
    dot
  let dot := config.sinks.foldl
    (fun dot ik =>
      ik.2.inputs.foldl
        (fun dot input =>
          dot.bind fun d => expectOk (writeStr d (dotEdgeStmt input ik.1)))
        (dot.bind fun d => expectOk (writeStr d (dotSinkStmt ik.1))))
    dot
  dot.map (fun d => d ++ "\x7d")

/-- `mermaid_graph` with every `writeln!`/`expect` step kept fallible. -/
def mermaid_graphChecked (config : Config) : Option String :=
  let mm := some "flowchart TD\n"
  let mm := config.sources.foldl
    (fun mm id => mm.bind fun m => expectOk (writeStr m (mmSourceStmt id))) mm
  let mm := config.transforms.foldl
    (fun mm it =>
      it.2.inputs.foldl
        (fun mm input =>
          mm.bind fun m => expectOk (writeStr m (mmEdgeStmt input it.1)))
        (mm.bind fun m => expectOk (writeStr m (mmTransformStmt it.1))))
    mm
  let mm := config.sinks.foldl
    (fun mm ik =>
      ik.2.inputs.foldl
        (fun mm input =>
          mm.bind fun m => expectOk (writeStr m (mmEdgeStmt input ik.1)))
        (mm.bind fun m => expectOk (writeStr m (mmSinkStmt ik.1))))
    mm
  mm


/-! ### The normalized graph (spec §3): nodes and edges

Both renderings are shown to be images of one dialect-independent
normalized graph — the node list and the flat edge list — under a
per-dialect rendering function, given the spec's invariant that component
identifiers are unique across all three kinds. -/

/-- The kind of a graph node. -/
inductive NodeKind
  | source
  | transform
  | sink
deriving DecidableEq, Repr

/-- One directed edge of the normalized graph: upstream component,
target component, optional port label. -/
structure Edge where
  src : String
  tgt : String
  label : Option String
deriving DecidableEq, Repr

/-- The normalized graph: the full list of nodes plus the full list of
edges for one configuration. -/
structure NGraph where
  nodes : List (String × NodeKind)
  edges : List Edge
deriving DecidableEq, Repr

/-- The edge created by resolving input reference `i` of component
`tgt`. -/
def inputEdge (tgt : String) (i : OutputId) : Edge :=
  ⟨i.component, tgt, i.port⟩

/-- The Topology Extractor: nodes in declaration order (sources, then
transforms, then sinks), edges from every input reference of every
transform and sink. -/
def extract (config : Config) : NGraph where
  nodes :=
    config.sources.map (fun id => (id, NodeKind.source))
      ++ config.transforms.map (fun it => (it.1, NodeKind.transform))
      ++ config.sinks.map (fun ik => (ik.1, NodeKind.sink))
  edges :=
    config.transforms.flatMap (fun it => it.2.inputs.map (inputEdge it.1))
      ++ config.sinks.flatMap (fun ik => ik.2.inputs.map (inputEdge ik.1))

/-- DOT node statement, keyed by node kind. -/
def dotNodeStmt : NodeKind → String → String
  | NodeKind.source => dotSourceStmt
  | NodeKind.transform => dotTransformStmt
  | NodeKind.sink => dotSinkStmt

/-- DOT edge statement of a normalized edge. -/
def dotEdgeStmtE (e : Edge) : String :=
  match e.label with
  | some port =>
      "  \"" ++ e.src ++ "\" -> \"" ++ e.tgt ++ "\" [label=\"" ++ port ++ "\"]\n"
  | none => "  \"" ++ e.src ++ "\" -> \"" ++ e.tgt ++ "\"\n"

/-- Mermaid node statement, keyed by node kind. -/
def mmNodeStmt : NodeKind → String → String
  | NodeKind.source => mmSourceStmt
  | NodeKind.transform => mmTransformStmt
  | NodeKind.sink => mmSinkStmt

/-- Mermaid edge statement of a normalized edge. -/
def mmEdgeStmtE (e : Edge) : String :=
  match e.label with
  | some port => "  " ++ e.src ++ "--" ++ port ++ "-->" ++ e.tgt ++ "\n"
  | none => "  " ++ e.src ++ "-->" ++ e.tgt ++ "\n"

/-- Render a normalized graph as DOT: each node statement followed by the
statements of the edges targeting that node. -/
def renderDot (g : NGraph) : String :=
  "digraph \x7b\n" ++
    concatStmts (g.nodes.flatMap (fun n =>
      dotNodeStmt n.2 n.1 ::
        (g.edges.filter (fun e => e.tgt == n.1)).map dotEdgeStmtE)) ++
    "\x7d"

/-- Render a normalized graph as Mermaid. -/
def renderMermaid (g : NGraph) : String :=
  "flowchart TD\n" ++
    concatStmts (g.nodes.flatMap (fun n =>
      mmNodeStmt n.2 n.1 ::
        (g.edges.filter (fun e => e.tgt == n.1)).map mmEdgeStmtE))

/-- All component identifiers of a configuration, in declaration order. -/
def Config.componentIds (config : Config) : List String :=
  config.sources ++ config.transforms.map Prod.fst
    ++ config.sinks.map Prod.fst


/-- The end-to-end example configuration of spec §8: source `in`,
transform `route` with inputs `["in"]`, sink `out` with inputs
`["route.a"]`. -/
def exampleConfig : Config where
  sources := ["in"]
  transforms := [("route", ⟨[⟨"in", none⟩]⟩)]
  sinks := [("out", ⟨[⟨"route", some "a"⟩]⟩)]

/-! ### Helper lemmas -/

theorem concatStmts_append (l1 l2 : List String) :
    concatStmts (l1 ++ l2) = concatStmts l1 ++ concatStmts l2 := by
  induction l1 with
  | nil => simp [concatStmts, String.empty_append]
  | cons a l ih => simp [concatStmts, ih, String.append_assoc]

theorem foldl_emit {α : Type} (f : α → String) (l : List α) (d : String) :
    l.foldl (fun acc x => acc ++ f x) d = d ++ concatStmts (l.map f) := by
  induction l generalizing d with
  | nil => simp [concatStmts, String.append_empty]
  | cons a l ih => simp [concatStmts, ih, String.append_assoc]

theorem foldl_group_emit {β : Type} (nstmt : String → String)
    (estmt : OutputId → String → String) (inputsOf : β → List OutputId)
    (l : List (String × β)) (d : String) :
    l.foldl
      (fun dot p =>
        (inputsOf p.2).foldl (fun dot input => dot ++ estmt input p.1)
          (dot ++ nstmt p.1))
      d
    = d ++ concatStmts
        (l.flatMap fun p => nstmt p.1 :: (inputsOf p.2).map (fun i => estmt i p.1)) := by
  induction l generalizing d with
  | nil => simp [concatStmts, String.append_empty]
  | cons a l ih =>
    rw [List.foldl_cons, foldl_emit, ih]
    simp [concatStmts, concatStmts_append, String.append_assoc, List.flatMap_cons,
      List.flatMap_def]

/-- The DOT renderer emits exactly the header, the statement lines of
`dotStmts` in order, and the closing brace. -/
theorem graphviz_graph_eq_stmts (config : Config) :
    graphviz_graph config
      = "digraph \x7b\n" ++ concatStmts (dotStmts config) ++ "\x7d" := by
  unfold graphviz_graph
  dsimp only
  rw [foldl_emit, foldl_group_emit dotTransformStmt dotEdgeStmt Transform.inputs,
    foldl_group_emit dotSinkStmt dotEdgeStmt Sink.inputs]
  unfold dotStmts
  simp [concatStmts_append, String.append_assoc]

/-- The Mermaid renderer emits exactly the header and the statement lines
of `mmStmts` in order. -/
theorem mermaid_graph_eq_stmts (config : Config) :
    mermaid_graph config
      = "flowchart TD\n" ++ concatStmts (mmStmts config) := by
  unfold mermaid_graph
  dsimp only
  rw [foldl_emit, foldl_group_emit mmTransformStmt mmEdgeStmt Transform.inputs,
    foldl_group_emit mmSinkStmt mmEdgeStmt Sink.inputs]
  unfold mmStmts
  simp [concatStmts_append, String.append_assoc]

theorem contains_of_mem (l : List String) (s : String) (h : s ∈ l) :
    ∀ pre post, containsStmt (pre ++ concatStmts l ++ post) s := by
  induction l with
  | nil => cases h
  | cons a l ih =>
    intro pre post
    rcases List.mem_cons.mp h with rfl | h2
    · exact ⟨pre, concatStmts l ++ post, by
        simp [concatStmts, String.append_assoc]⟩
    · obtain ⟨x, y, hxy⟩ := ih h2 (pre ++ a) post
      exact ⟨x, y, by rw [← hxy]; simp [concatStmts, String.append_assoc]⟩

theorem expectOk_writeStr (d s : String) :
    expectOk (writeStr d s) = some (d ++ s) := rfl

theorem checked_foldl_eq {α : Type} (f : α → String) (l : List α) (d : String) :
    l.foldl (fun acc x => acc.bind fun s => expectOk (writeStr s (f x))) (some d)
      = some (l.foldl (fun acc x => acc ++ f x) d) := by
  induction l generalizing d with
  | nil => rfl
  | cons a l ih =>
    rw [List.foldl_cons, List.foldl_cons]
    have h1 : (some d).bind (fun s => expectOk (writeStr s (f a)))
        = some (d ++ f a) := rfl
    rw [h1]
    exact ih _

theorem checked_group_foldl_eq {β : Type} (nstmt : String → String)
    (estmt : OutputId → String → String) (inputsOf : β → List OutputId)
    (l : List (String × β)) (d : String) :
    l.foldl
      (fun acc p =>
        (inputsOf p.2).foldl
          (fun acc input => acc.bind fun s => expectOk (writeStr s (estmt input p.1)))
          (acc.bind fun s => expectOk (writeStr s (nstmt p.1))))
      (some d)
      = some (l.foldl
          (fun dot p =>
            (inputsOf p.2).foldl (fun dot input => dot ++ estmt input p.1)
              (dot ++ nstmt p.1)) d) := by
  induction l generalizing d with
  | nil => rfl
  | cons a l ih =>
    rw [List.foldl_cons, List.foldl_cons]
    have h1 : (some d).bind (fun s => expectOk (writeStr s (nstmt a.1)))
        = some (d ++ nstmt a.1) := rfl
    rw [h1, checked_foldl_eq (fun input => estmt input a.1)]
    exact ih _

theorem graphviz_graphChecked_eq (config : Config) :
    graphviz_graphChecked config = some (graphviz_graph config) := by
  unfold graphviz_graphChecked graphviz_graph
  dsimp only
  rw [checked_foldl_eq dotSourceStmt,
    checked_group_foldl_eq dotTransformStmt dotEdgeStmt Transform.inputs,
    checked_group_foldl_eq dotSinkStmt dotEdgeStmt Sink.inputs]
  rfl

theorem mermaid_graphChecked_eq (config : Config) :
    mermaid_graphChecked config = some (mermaid_graph config) := by
  unfold mermaid_graphChecked mermaid_graph
  dsimp only
  rw [checked_foldl_eq mmSourceStmt,
    checked_group_foldl_eq mmTransformStmt mmEdgeStmt Transform.inputs,
    checked_group_foldl_eq mmSinkStmt mmEdgeStmt Sink.inputs]

theorem dotEdgeStmtE_inputEdge (tgt : String) (i : OutputId) :
    dotEdgeStmtE (inputEdge tgt i) = dotEdgeStmt i tgt := by
  cases h : i.port <;>
    simp [dotEdgeStmtE, inputEdge, dotEdgeStmt, OutputId.display, h]

theorem mmEdgeStmtE_inputEdge (tgt : String) (i : OutputId) :
    mmEdgeStmtE (inputEdge tgt i) = mmEdgeStmt i tgt := by
  cases h : i.port <;>
    simp [mmEdgeStmtE, inputEdge, mmEdgeStmt, OutputId.display, h]

theorem filter_edges_nil (es : List Edge) (id : String)
    (h : ∀ e ∈ es, e.tgt ≠ id) :
    es.filter (fun e => e.tgt == id) = [] :=
  List.filter_eq_nil_iff.mpr (fun e he => by simpa using h e he)

theorem filter_edges_self (es : List Edge) (id : String)
    (h : ∀ e ∈ es, e.tgt = id) :
    es.filter (fun e => e.tgt == id) = es :=
  List.filter_eq_self.mpr (fun e he => by simpa using h e he)

theorem tgt_mem_of_mem_edges {β : Type} (inputsOf : β → List OutputId)
    (l : List (String × β)) (e : Edge)
    (he : e ∈ l.flatMap fun q => (inputsOf q.2).map (inputEdge q.1)) :
    e.tgt ∈ l.map Prod.fst := by
  obtain ⟨q, hq, hm⟩ := List.mem_flatMap.mp he
  obtain ⟨i, _, rfl⟩ := List.mem_map.mp hm
  exact List.mem_map.mpr ⟨q, hq, rfl⟩

theorem filter_flatMap_edges_nil {β : Type} (inputsOf : β → List OutputId)
    (l : List (String × β)) (id : String) (hid : id ∉ l.map Prod.fst) :
    ((l.flatMap fun q => (inputsOf q.2).map (inputEdge q.1)).filter
        fun e => e.tgt == id) = [] :=
  filter_edges_nil _ _ (fun e he h2 =>
    hid (h2 ▸ tgt_mem_of_mem_edges inputsOf l e he))

theorem filter_flatMap_edges_self {β : Type} (inputsOf : β → List OutputId) :
    ∀ (l : List (String × β)), (l.map Prod.fst).Nodup →
      ∀ p ∈ l,
        ((l.flatMap fun q => (inputsOf q.2).map (inputEdge q.1)).filter
            fun e => e.tgt == p.1)
          = (inputsOf p.2).map (inputEdge p.1) := by
  intro l
  induction l with
  | nil => intro _ p hp; cases hp
  | cons a l ih =>
    intro hnd p hp
    rw [List.map_cons, List.nodup_cons] at hnd
    obtain ⟨ha, hnd2⟩ := hnd
    rw [List.flatMap_cons, List.filter_append]
    rcases List.mem_cons.mp hp with rfl | hp2
    · rw [filter_edges_self _ _ (fun e he => by
          obtain ⟨i, _, rfl⟩ := List.mem_map.mp he; rfl),
        filter_flatMap_edges_nil inputsOf l p.1 ha, List.append_nil]
    · have hne : a.1 ≠ p.1 := fun h2 =>
        ha (h2 ▸ List.mem_map.mpr ⟨p, hp2, rfl⟩)
      rw [filter_edges_nil _ _ (fun e he => by
          obtain ⟨i, _, rfl⟩ := List.mem_map.mp he; exact hne),
        List.nil_append, ih hnd2 p hp2]

theorem flatMap_singleton_map {α β : Type} (l : List α) (f : α → β) :
    (l.flatMap fun x => [f x]) = l.map f := by
  induction l with
  | nil => rfl
  | cons a l ih => simp [List.flatMap_cons, ih]

/-- Under the uniqueness invariant on component identifiers, the
statement groups produced from the normalized graph (each node with the
edges filtered by its identifier) coincide with the statement groups
produced directly from the configuration. -/
theorem extract_stmts (nstmtK : NodeKind → String → String)
    (estmtE : Edge → String) (config : Config)
    (h : config.componentIds.Nodup) :
    (extract config).nodes.flatMap (fun n =>
        nstmtK n.2 n.1 ::
          ((extract config).edges.filter (fun e => e.tgt == n.1)).map estmtE)
      = config.sources.map (fun id => nstmtK NodeKind.source id)
        ++ config.transforms.flatMap (fun it =>
            nstmtK NodeKind.transform it.1 ::
              it.2.inputs.map (fun i => estmtE (inputEdge it.1 i)))
        ++ config.sinks.flatMap (fun ik =>
            nstmtK NodeKind.sink ik.1 ::
              ik.2.inputs.map (fun i => estmtE (inputEdge ik.1 i))) := by
  unfold Config.componentIds at h
  rw [List.nodup_append] at h
  obtain ⟨hst, hk, hdisj⟩ := h
  rw [List.nodup_append] at hst
  obtain ⟨hs, ht, hst2⟩ := hst
  have hedget : ∀ e ∈ (extract config).edges,
      e.tgt ∈ config.transforms.map Prod.fst
        ∨ e.tgt ∈ config.sinks.map Prod.fst := by
    intro e he
    simp only [extract] at he
    rcases List.mem_append.mp he with h1 | h1
    · exact Or.inl (tgt_mem_of_mem_edges _ _ _ h1)
    · exact Or.inr (tgt_mem_of_mem_edges _ _ _ h1)
  have hS : ∀ id ∈ config.sources,
      (extract config).edges.filter (fun e => e.tgt == id) = [] := by
    intro id hid
    apply filter_edges_nil
    intro e he h2
    rcases hedget e he with h3 | h3
    · exact hst2 hid (h2 ▸ h3)
    · exact hdisj (List.mem_append.mpr (Or.inl hid)) (h2 ▸ h3)
  have hT : ∀ it ∈ config.transforms,
      (extract config).edges.filter (fun e => e.tgt == it.1)
        = it.2.inputs.map (inputEdge it.1) := by
    intro it hit
    have hnk : it.1 ∉ config.sinks.map Prod.fst := fun h3 =>
      hdisj (List.mem_append.mpr (Or.inr (List.mem_map.mpr ⟨it, hit, rfl⟩))) h3
    simp only [extract]
    rw [List.filter_append,
      filter_flatMap_edges_self Transform.inputs config.transforms ht it hit,
      filter_flatMap_edges_nil Sink.inputs config.sinks it.1 hnk,
      List.append_nil]
  have hK : ∀ ik ∈ config.sinks,
      (extract config).edges.filter (fun e => e.tgt == ik.1)
        = ik.2.inputs.map (inputEdge ik.1) := by
    intro ik hik
    have hnt : ik.1 ∉ config.transforms.map Prod.fst := fun h3 =>
      hdisj (List.mem_append.mpr (Or.inr h3)) (List.mem_map.mpr ⟨ik, hik, rfl⟩)
    simp only [extract]
    rw [List.filter_append,
      filter_flatMap_edges_nil Transform.inputs config.transforms ik.1 hnt,
      filter_flatMap_edges_self Sink.inputs config.sinks hk ik hik,
      List.nil_append]
  conv_lhs => rw [show (extract config).nodes
    = config.sources.map (fun id => (id, NodeKind.source))
      ++ config.transforms.map (fun it => (it.1, NodeKind.transform))
      ++ config.sinks.map (fun ik => (ik.1, NodeKind.sink)) from rfl]
  rw [List.flatMap_append, List.flatMap_append,
    List.flatMap_map, List.flatMap_map, List.flatMap_map]
  have e1 : (config.sources.flatMap fun id =>
      nstmtK NodeKind.source id ::
        ((extract config).edges.filter (fun e => e.tgt == id)).map estmtE)
      = config.sources.map (fun id => nstmtK NodeKind.source id) := by
    rw [List.flatMap_congr (g := fun id => [nstmtK NodeKind.source id])
      (fun id hid => by rw [hS id hid]; rfl)]
    exact flatMap_singleton_map _ _
  have e2 : (config.transforms.flatMap fun it =>
      nstmtK NodeKind.transform it.1 ::
        ((extract config).edges.filter (fun e => e.tgt == it.1)).map estmtE)
      = config.transforms.flatMap (fun it =>
          nstmtK NodeKind.transform it.1 ::
            it.2.inputs.map (fun i => estmtE (inputEdge it.1 i))) :=
    List.flatMap_congr (fun it hit => by
      rw [hT it hit, List.map_map]; rfl)
  have e3 : (config.sinks.flatMap fun ik =>
      nstmtK NodeKind.sink ik.1 ::
        ((extract config).edges.filter (fun e => e.tgt == ik.1)).map estmtE)
      = config.sinks.flatMap (fun ik =>
          nstmtK NodeKind.sink ik.1 ::
            ik.2.inputs.map (fun i => estmtE (inputEdge ik.1 i))) :=
    List.flatMap_congr (fun ik hik => by
      rw [hK ik hik, List.map_map]; rfl)
  rw [e1, e2, e3]

/-- Under the uniqueness invariant, the DOT document of a configuration
is the DOT rendering of its normalized graph. -/
theorem graphviz_graph_eq_renderDot (config : Config)
    (h : config.componentIds.Nodup) :
    graphviz_graph config = renderDot (extract config) := by
  rw [graphviz_graph_eq_stmts, renderDot,
    extract_stmts dotNodeStmt dotEdgeStmtE config h, dotStmts]
  simp only [dotNodeStmt, dotEdgeStmtE_inputEdge]

/-- Under the uniqueness invariant, the Mermaid document of a
configuration is the Mermaid rendering of its normalized graph. -/
theorem mermaid_graph_eq_renderMermaid (config : Config)
    (h : config.componentIds.Nodup) :
    mermaid_graph config = renderMermaid (extract config) := by
  rw [mermaid_graph_eq_stmts, renderMermaid,
    extract_stmts mmNodeStmt mmEdgeStmtE config h, mmStmts]
  simp only [mmNodeStmt, mmEdgeStmtE_inputEdge]

theorem contains_graphviz_of_mem {config : Config} {s : String}
    (h : s ∈ dotStmts config) : containsStmt (graphviz_graph config) s := by
  rw [graphviz_graph_eq_stmts]
  exact contains_of_mem _ _ h _ _

theorem contains_mermaid_of_mem {config : Config} {s : String}
    (h : s ∈ mmStmts config) : containsStmt (mermaid_graph config) s := by
  rw [mermaid_graph_eq_stmts]
  have h2 := contains_of_mem _ _ h "flowchart TD\n" ""
  rwa [String.append_empty] at h2

theorem mem_dotStmts_source {config : Config} {id : String}
    (h : id ∈ config.sources) : dotSourceStmt id ∈ dotStmts config := by
  unfold dotStmts
  exact List.mem_append_left _
    (List.mem_append_left _ (List.mem_map.mpr ⟨id, h, rfl⟩))

theorem mem_dotStmts_transform {config : Config} {it : String × Transform}
    (h : it ∈ config.transforms) : dotTransformStmt it.1 ∈ dotStmts config := by
  unfold dotStmts
  exact List.mem_append_left _ (List.mem_append_right _
    (List.mem_flatMap.mpr ⟨it, h, List.mem_cons_self _ _⟩))

theorem mem_dotStmts_transform_edge {config : Config} {it : String × Transform}
    (h : it ∈ config.transforms) {i : OutputId} (hi : i ∈ it.2.inputs) :
    dotEdgeStmt i it.1 ∈ dotStmts config := by
  unfold dotStmts
  exact List.mem_append_left _ (List.mem_append_right _
    (List.mem_flatMap.mpr ⟨it, h,
      List.mem_cons_of_mem _ (List.mem_map.mpr ⟨i, hi, rfl⟩)⟩))

theorem mem_dotStmts_sink {config : Config} {ik : String × Sink}
    (h : ik ∈ config.sinks) : dotSinkStmt ik.1 ∈ dotStmts config := by
  unfold dotStmts
  exact List.mem_append_right _
    (List.mem_flatMap.mpr ⟨ik, h, List.mem_cons_self _ _⟩)

theorem mem_dotStmts_sink_edge {config : Config} {ik : String × Sink}
    (h : ik ∈ config.sinks) {i : OutputId} (hi : i ∈ ik.2.inputs) :
    dotEdgeStmt i ik.1 ∈ dotStmts config := by
  unfold dotStmts
  exact List.mem_append_right _ (List.mem_flatMap.mpr ⟨ik, h,
    List.mem_cons_of_mem _ (List.mem_map.mpr ⟨i, hi, rfl⟩)⟩)

theorem mem_mmStmts_source {config : Config} {id : String}
    (h : id ∈ config.sources) : mmSourceStmt id ∈ mmStmts config := by
  unfold mmStmts
  exact List.mem_append_left _
    (List.mem_append_left _ (List.mem_map.mpr ⟨id, h, rfl⟩))

theorem mem_mmStmts_transform {config : Config} {it : String × Transform}
    (h : it ∈ config.transforms) : mmTransformStmt it.1 ∈ mmStmts config := by
  unfold mmStmts
  exact List.mem_append_left _ (List.mem_append_right _
    (List.mem_flatMap.mpr ⟨it, h, List.mem_cons_self _ _⟩))

theorem mem_mmStmts_transform_edge {config : Config} {it : String × Transform}
    (h : it ∈ config.transforms) {i : OutputId} (hi : i ∈ it.2.inputs) :
    mmEdgeStmt i it.1 ∈ mmStmts config := by
  unfold mmStmts
  exact List.mem_append_left _ (List.mem_append_right _
    (List.mem_flatMap.mpr ⟨it, h,
      List.mem_cons_of_mem _ (List.mem_map.mpr ⟨i, hi, rfl⟩)⟩))

theorem mem_mmStmts_sink {config : Config} {ik : String × Sink}
    (h : ik ∈ config.sinks) : mmSinkStmt ik.1 ∈ mmStmts config := by
  unfold mmStmts
  exact List.mem_append_right _
    (List.mem_flatMap.mpr ⟨ik, h, List.mem_cons_self _ _⟩)

theorem mem_mmStmts_sink_edge {config : Config} {ik : String × Sink}
    (h : ik ∈ config.sinks) {i : OutputId} (hi : i ∈ ik.2.inputs) :
    mmEdgeStmt i ik.1 ∈ mmStmts config := by
  unfold mmStmts
  exact List.mem_append_right _ (List.mem_flatMap.mpr ⟨ik, h,
    List.mem_cons_of_mem _ (List.mem_map.mpr ⟨i, hi, rfl⟩)⟩)

/-! ### Claim theorems -/

/-- Claim C1 (code side): for the unsupported format name `"svg"` and any
successfully loaded configuration, `cmd` does not reject with an
"unsupported output format" error — it prints a single empty line (one
newline) to stdout and returns the success exit code.  This contradicts
the claim's required behavior and documents the defect the spec itself
flags. -/
theorem cmd_svg_prints_empty_document (config : Config) :
    cmd "svg" config = ("\n", exitcodeOK) := by
  unfold cmd
  dsimp only
  rw [if_neg (by decide), if_neg (by decide), String.empty_append]

/-- Claim C2: in both dialects the node statements appear in declaration
order — all sources, then all transforms, then all sinks, each collection
in insertion order — and each transform's/sink's edge statements appear
immediately after its node statement, in declared input order.  The
rendered document is exactly the header followed by the statement list
`dotStmts`/`mmStmts`, which is spelled in that order. -/
theorem emission_order_matches_declaration (config : Config) :
    graphviz_graph config
        = "digraph \x7b\n" ++ concatStmts (dotStmts config) ++ "\x7d"
      ∧ mermaid_graph config
        = "flowchart TD\n" ++ concatStmts (mmStmts config) :=
  ⟨graphviz_graph_eq_stmts config, mermaid_graph_eq_stmts config⟩

/-- Claim C3: in the DOT output, every node statement is the component
identifier in double quotes followed by the shape attribute keyed by
kind: trapezium for sources, diamond for transforms, invtrapezium for
sinks. -/
theorem dot_node_statement_shape (config : Config) :
    (∀ id ∈ config.sources,
      containsStmt (graphviz_graph config)
        ("  \"" ++ id ++ "\" [shape=trapezium]\n"))
    ∧ (∀ it ∈ config.transforms,
      containsStmt (graphviz_graph config)
        ("  \"" ++ it.1 ++ "\" [shape=diamond]\n"))
    ∧ (∀ ik ∈ config.sinks,
      containsStmt (graphviz_graph config)
        ("  \"" ++ ik.1 ++ "\" [shape=invtrapezium]\n")) :=
  ⟨fun _ hid => contains_graphviz_of_mem (mem_dotStmts_source hid),
    fun _ hit => contains_graphviz_of_mem (mem_dotStmts_transform hit),
    fun _ hik => contains_graphviz_of_mem (mem_dotStmts_sink hik)⟩

theorem dot_node_statement_shape_witness :
    containsStmt (graphviz_graph exampleConfig) "  \"in\" [shape=trapezium]\n"
    ∧ containsStmt (graphviz_graph exampleConfig) "  \"route\" [shape=diamond]\n"
    ∧ containsStmt (graphviz_graph exampleConfig)
        "  \"out\" [shape=invtrapezium]\n" :=
  ⟨(dot_node_statement_shape exampleConfig).1 "in" (by decide),
    (dot_node_statement_shape exampleConfig).2.1
      ("route", ⟨[⟨"in", none⟩]⟩) (by decide),
    (dot_node_statement_shape exampleConfig).2.2
      ("out", ⟨[⟨"route", some "a"⟩]⟩) (by decide)⟩

/-- Claim C4: the Mermaid output starts with a header declaring top-down
flow, and every node statement uses the shape syntax keyed by kind, with
the visible label equal to the identifier in every case. -/
theorem mermaid_node_statement_shape (config : Config) :
    (∃ rest, mermaid_graph config = "flowchart TD\n" ++ rest)
    ∧ (∀ id ∈ config.sources,
      containsStmt (mermaid_graph config)
        ("  " ++ id ++ "[/" ++ id ++ "\\]\n"))
    ∧ (∀ it ∈ config.transforms,
      containsStmt (mermaid_graph config)
        ("  " ++ it.1 ++ "[\x7b " ++ it.1 ++ " \x7d]\n"))
    ∧ (∀ ik ∈ config.sinks,
      containsStmt (mermaid_graph config)
        ("  " ++ ik.1 ++ "[\\ " ++ ik.1 ++ " /]\n")) :=
  ⟨⟨concatStmts (mmStmts config), mermaid_graph_eq_stmts config⟩,
    fun _ hid => contains_mermaid_of_mem (mem_mmStmts_source hid),
    fun _ hit => contains_mermaid_of_mem (mem_mmStmts_transform hit),
    fun _ hik => contains_mermaid_of_mem (mem_mmStmts_sink hik)⟩

theorem mermaid_node_statement_shape_witness :
    (∃ rest, mermaid_graph exampleConfig = "flowchart TD\n" ++ rest)
    ∧ containsStmt (mermaid_graph exampleConfig) "  in[/in\\]\n"
    ∧ containsStmt (mermaid_graph exampleConfig) "  route[\x7b route \x7d]\n"
    ∧ containsStmt (mermaid_graph exampleConfig) "  out[\\ out /]\n" :=
  ⟨(mermaid_node_statement_shape exampleConfig).1,
    (mermaid_node_statement_shape exampleConfig).2.1 "in" (by decide),
    (mermaid_node_statement_shape exampleConfig).2.2.1
      ("route", ⟨[⟨"in", none⟩]⟩) (by decide),
    (mermaid_node_statement_shape exampleConfig).2.2.2
      ("out", ⟨[⟨"route", some "a"⟩]⟩) (by decide)⟩

/-- Claim C5: a port-qualified input reference renders as an edge carrying
the port as label (`label="<port>"` in DOT, inline `from--<port>-->to` in
Mermaid); an unqualified reference renders as an edge statement with no
label attribute or inline label text in either dialect. -/
theorem edge_port_label_rendering (config : Config) :
    (∀ it ∈ config.transforms, ∀ input ∈ it.2.inputs,
      (∀ p, input.port = some p →
        containsStmt (graphviz_graph config)
          ("  \"" ++ input.component ++ "\" -> \"" ++ it.1 ++
            "\" [label=\"" ++ p ++ "\"]\n")
        ∧ containsStmt (mermaid_graph config)
          ("  " ++ input.component ++ "--" ++ p ++ "-->" ++ it.1 ++ "\n"))
      ∧ (input.port = none →
        containsStmt (graphviz_graph config)
          ("  \"" ++ input.component ++ "\" -> \"" ++ it.1 ++ "\"\n")
        ∧ containsStmt (mermaid_graph config)
          ("  " ++ input.component ++ "-->" ++ it.1 ++ "\n")))
    ∧ (∀ ik ∈ config.sinks, ∀ input ∈ ik.2.inputs,
      (∀ p, input.port = some p →
        containsStmt (graphviz_graph config)
          ("  \"" ++ input.component ++ "\" -> \"" ++ ik.1 ++
            "\" [label=\"" ++ p ++ "\"]\n")
        ∧ containsStmt (mermaid_graph config)
          ("  " ++ input.component ++ "--" ++ p ++ "-->" ++ ik.1 ++ "\n"))
      ∧ (input.port = none →
        containsStmt (graphviz_graph config)
          ("  \"" ++ input.component ++ "\" -> \"" ++ ik.1 ++ "\"\n")
        ∧ containsStmt (mermaid_graph config)
          ("  " ++ input.component ++ "-->" ++ ik.1 ++ "\n"))) := by
  constructor
  · intro it hit input hinput
    constructor
    · intro p hp
      have hd := contains_graphviz_of_mem (mem_dotStmts_transform_edge hit hinput)
      have hm := contains_mermaid_of_mem (mem_mmStmts_transform_edge hit hinput)
      rw [show dotEdgeStmt input it.1 = "  \"" ++ input.component ++ "\" -> \"" ++
          it.1 ++ "\" [label=\"" ++ p ++ "\"]\n" from by
        simp [dotEdgeStmt, hp]] at hd
      rw [show mmEdgeStmt input it.1 = "  " ++ input.component ++ "--" ++ p ++
          "-->" ++ it.1 ++ "\n" from by simp [mmEdgeStmt, hp]] at hm
      exact ⟨hd, hm⟩
    · intro hp
      have hd := contains_graphviz_of_mem (mem_dotStmts_transform_edge hit hinput)
      have hm := contains_mermaid_of_mem (mem_mmStmts_transform_edge hit hinput)
      rw [show dotEdgeStmt input it.1 = "  \"" ++ input.component ++ "\" -> \"" ++
          it.1 ++ "\"\n" from by
        simp [dotEdgeStmt, OutputId.display, hp]] at hd
      rw [show mmEdgeStmt input it.1 = "  " ++ input.component ++ "-->" ++
          it.1 ++ "\n" from by simp [mmEdgeStmt, OutputId.display, hp]] at hm
      exact ⟨hd, hm⟩
  · intro ik hik input hinput
    constructor
    · intro p hp
      have hd := contains_graphviz_of_mem (mem_dotStmts_sink_edge hik hinput)
      have hm := contains_mermaid_of_mem (mem_mmStmts_sink_edge hik hinput)
      rw [show dotEdgeStmt input ik.1 = "  \"" ++ input.component ++ "\" -> \"" ++
          ik.1 ++ "\" [label=\"" ++ p ++ "\"]\n" from by
        simp [dotEdgeStmt, hp]] at hd
      rw [show mmEdgeStmt input ik.1 = "  " ++ input.component ++ "--" ++ p ++
          "-->" ++ ik.1 ++ "\n" from by simp [mmEdgeStmt, hp]] at hm
      exact ⟨hd, hm⟩
    · intro hp
      have hd := contains_graphviz_of_mem (mem_dotStmts_sink_edge hik hinput)
      have hm := contains_mermaid_of_mem (mem_mmStmts_sink_edge hik hinput)
      rw [show dotEdgeStmt input ik.1 = "  \"" ++ input.component ++ "\" -> \"" ++
          ik.1 ++ "\"\n" from by
        simp [dotEdgeStmt, OutputId.display, hp]] at hd
      rw [show mmEdgeStmt input ik.1 = "  " ++ input.component ++ "-->" ++
          ik.1 ++ "\n" from by simp [mmEdgeStmt, OutputId.display, hp]] at hm
      exact ⟨hd, hm⟩

theorem edge_port_label_rendering_witness :
    (containsStmt (graphviz_graph exampleConfig) "  \"in\" -> \"route\"\n"
      ∧ containsStmt (mermaid_graph exampleConfig) "  in-->route\n")
    ∧ (containsStmt (graphviz_graph exampleConfig)
        "  \"route\" -> \"out\" [label=\"a\"]\n"
      ∧ containsStmt (mermaid_graph exampleConfig) "  route--a-->out\n") :=
  ⟨((edge_port_label_rendering exampleConfig).1
      ("route", ⟨[⟨"in", none⟩]⟩) (by decide)
      ⟨"in", none⟩ (by decide)).2 rfl,
    ((edge_port_label_rendering exampleConfig).2
      ("out", ⟨[⟨"route", some "a"⟩]⟩) (by decide)
      ⟨"route", some "a"⟩ (by decide)).1 "a" rfl⟩

/-- Claim C6: under the configuration model's uniqueness invariant on
component identifiers, the DOT and the Mermaid documents are the two
dialect renderings of one and the same normalized graph — the same node
identifiers with kinds and the same directed edges with optional port
labels — differing only in the per-dialect statement syntax. -/
theorem dot_mermaid_same_normalized_graph (config : Config)
    (h : config.componentIds.Nodup) :
    graphviz_graph config = renderDot (extract config)
      ∧ mermaid_graph config = renderMermaid (extract config) :=
  ⟨graphviz_graph_eq_renderDot config h,
    mermaid_graph_eq_renderMermaid config h⟩

theorem dot_mermaid_same_normalized_graph_witness :
    graphviz_graph exampleConfig = renderDot (extract exampleConfig)
      ∧ mermaid_graph exampleConfig = renderMermaid (extract exampleConfig) :=
  dot_mermaid_same_normalized_graph exampleConfig (by decide)

/-- Claim C7: rendering is deterministic — two invocations of the same
renderer on the same configuration produce byte-identical strings, in
both dialects (the renderers are pure functions of the configuration). -/
theorem rendering_deterministic (c1 c2 : Config) (h : c1 = c2) :
    graphviz_graph c1 = graphviz_graph c2
      ∧ mermaid_graph c1 = mermaid_graph c2 := by
  subst h
  exact ⟨rfl, rfl⟩

theorem rendering_deterministic_witness :
    graphviz_graph exampleConfig = graphviz_graph exampleConfig
      ∧ mermaid_graph exampleConfig = mermaid_graph exampleConfig :=
  rendering_deterministic exampleConfig exampleConfig rfl

/-- Claim C8: for a configuration with no transforms and no sinks, the
DOT document is exactly the header, one node statement per source in
order, and the closing brace — no edge statements. -/
theorem dot_sources_only_no_edges (config : Config)
    (ht : config.transforms = []) (hk : config.sinks = []) :
    graphviz_graph config
      = "digraph \x7b\n" ++ concatStmts (config.sources.map dotSourceStmt)
        ++ "\x7d" := by
  rw [graphviz_graph_eq_stmts, dotStmts, ht, hk]
  simp

theorem dot_sources_only_no_edges_witness :
    graphviz_graph ⟨["a", "b"], [], []⟩
      = "digraph \x7b\n"
        ++ concatStmts (List.map dotSourceStmt ["a", "b"]) ++ "\x7d" :=
  dot_sources_only_no_edges ⟨["a", "b"], [], []⟩ rfl rfl

/-- Claim C9: both renderers are total — every fallible write step in the
checked variants returns `Ok`, so the `expect("write to String never
fails")` branch is unreachable and each renderer returns the plain
string. -/
theorem renderers_total_no_panic (config : Config) :
    graphviz_graphChecked config = some (graphviz_graph config)
      ∧ mermaid_graphChecked config = some (mermaid_graph config) :=
  ⟨graphviz_graphChecked_eq config, mermaid_graphChecked_eq config⟩

/-- Claim C10: for any format name other than `"dot"` and `"mermaid"`,
given a successfully loaded configuration, `cmd` returns the success exit
code and prints exactly one empty line — the single newline `println!`
appends to the empty graph string. -/
theorem cmd_unknown_format_output (fmt : String) (config : Config)
    (h1 : fmt ≠ "dot") (h2 : fmt ≠ "mermaid") :
    cmd fmt config = ("\n", exitcodeOK) := by
  unfold cmd
  dsimp only
  rw [if_neg (by simpa using h1), if_neg (by simpa using h2),
    String.empty_append]

theorem cmd_unknown_format_output_witness :
    cmd "mermaidd" exampleConfig = ("\n", exitcodeOK) :=
  cmd_unknown_format_output "mermaidd" exampleConfig (by decide) (by decide)

end VectorGraph
